import Mathlib

/-!
Verification development for the Hogwild/APA orchestrator
(`src/mnist_hogwild/main.py`).

The file shallowly embeds the orchestration logic of `main.py`:

* the run configuration produced by the sub-command argument parser
  (`Args`, `Mode`);
* the filesystem effects of `setup_outfiles` and `setup_and_load`
  (directories and files modelled as lists of path strings);
* the evaluation/poll loops of `launch_atk_proc` and `launch_procs`.
  The external collaborators `train`/`test` live in `train.py` (out of
  scope); `test` is passed in as an opaque function from the `etime`
  argument to a loss/accuracy pair, and the liveness of the spawned
  worker processes is an external oracle: the attack loop is indexed by
  the number of poll iterations for which `atk_p.is_alive()` returned
  true, and the worker loop by the list of liveness snapshots the
  successive `procs_alive` calls observe (one snapshot per poll; the
  loop exits at the first uniformly-dead snapshot, matching the `while`
  conditions in the source);
* the `__main__` prologue (lines 288-322) and the launch phase
  (lines 347-359), with Python exceptions modelled by `PyErr`.

Machine floats computed by `test` never influence control flow in
`main.py`, so records are parametric in the loss/accuracy type.
-/

namespace Hogwild

/-- Mode selected by the sub-command parser (`main.py` lines 48-65).
`normal` is the absence of a sub-command.  The sub-command specific
options `--attack-batches`, `--step-size` and `--num-stages` only exist
in the corresponding mode, so they are carried by the constructors. -/
inductive Mode
  | normal
  | baseline
  | simulate (attack_batches : Nat)
  | simulateMulti (step_size num_stages : Nat)
deriving DecidableEq

/-- Parsed arguments relevant to the orchestration logic
(`main.py` lines 44-108).  Options that are only forwarded to the
external `train`/`test` collaborators (lr, batch size, momentum,
optimizer, target, bias, log interval, max steps) are omitted: they
never influence the control flow of `main.py`.  NOTE: the sub-command
parser stores the chosen sub-command under `args.mode`; it defines no
`baseline` attribute (see `argsGetBaseline`). -/
structure Args where
  runname : String
  mode : Mode
  resume : Int
  checkpoint_name : String
  checkpoint_lname : Option String
  prepend_logs : Option String
  num_processes : Nat
deriving DecidableEq

/-- The `simulating` flag computed at `main.py` lines 297-307: true
exactly for the `simulate` and `simulate-multi` sub-commands.  The same
predicate is tested by `args.mode == 'simulate' or args.mode ==
'simulate-multi'` at line 185. -/
def simulatingOf : Mode → Bool
  | Mode.simulate _ => true
  | Mode.simulateMulti _ _ => true
  | _ => false

/-- Python exceptions / assertion failures raised by `main.py`,
distinguished by raise site. -/
inductive PyErr
  /-- `AttributeError` from accessing a missing attribute of `args`. -/
  | attributeError (attr : String)
  /-- line 142: `assert(prepend != dirname)`. -/
  | prependConflict
  /-- line 155: `assert(os.path.exists(prepend))`. -/
  | prependMissingDir (path : String)
  /-- line 163: `assert(os.path.isfile(pre_fpath))`. -/
  | prependMissingFile (path : String)
  /-- line 186: `assert(args.resume != -1)`. -/
  | simulateNeedsCheckpoint
  /-- line 190: `assert(os.path.isfile(ckpt_load_fname))`. -/
  | checkpointNotFound (path : String)
  /-- line 197 reads the module-level global `best_acc`, which is only
  bound by the assignment `model, best_acc = setup_and_load(model)` at
  line 336 AFTER `setup_and_load` returns; Python raises `NameError`. -/
  | nameErrorBestAcc
  /-- line 202 `return mdl, bacc`: `bacc` is a local only assigned in
  the simulate branch (line 194), so the non-simulate branch raises
  `UnboundLocalError`. -/
  | unboundLocalBacc
  /-- line 321: `assert(not (args.baseline and args.num_processes > 1))`. -/
  | baselineTooManyProcs
  /-- line 316-318: interactive confirmation not answered with `y`. -/
  | cpuBaselineRefused
  /-- lines 234-237 and 277-280: the eval logs are written through
  `csv.DictWriter(eval_f, fieldnames=['time', 'vacc'])`, but every
  appended row also carries a `'vloss'` key (lines 217-218, 269-270);
  with the default `extrasaction='raise'`, the first `writerow` raises
  `ValueError: dict contains fields not in fieldnames: 'vloss'`. -/
  | valueErrorCsvVloss
deriving DecidableEq

/-- Is the error one of the two prepend-validation assertion failures of
`setup_outfiles` (lines 155 and 163)? -/
def PyErr.isPrependMissing : PyErr → Bool
  | PyErr.prependMissingDir _ => true
  | PyErr.prependMissingFile _ => true
  | _ => false

/-- Filesystem state: the sets of existing directory paths and file
paths.  File contents never influence the control flow of `main.py`,
so they are not modelled. -/
structure FS where
  dirs : List String
  files : List String
deriving DecidableEq

/-- `os.path.exists`. -/
def FS.existsPath (fs : FS) (p : String) : Bool :=
  decide (p ∈ fs.dirs) || decide (p ∈ fs.files)

/-- `os.path.isfile`. -/
def FS.isFile (fs : FS) (p : String) : Bool :=
  decide (p ∈ fs.files)

/-- `shutil.rmtree d`: removes the directory, its subdirectories and
the files below it.  (The `OSError -> sys.exit(1)` branch at lines
149-151 is an external-OS failure and is not modelled: in the model
removal succeeds.) -/
def FS.rmtree (fs : FS) (d : String) : FS :=
  FS.mk (fs.dirs.filter (fun x => !(decide (x = d) || (d ++ "/").isPrefixOf x)))
        (fs.files.filter (fun x => !((d ++ "/").isPrefixOf x)))

/-- `os.mkdir`. -/
def FS.mkdir (fs : FS) (d : String) : FS :=
  FS.mk (d :: fs.dirs) fs.files

/-- `os.mkdir` wrapped in `try/except EEXIST` (`main.py` lines 170-178). -/
def FS.mkdirIfAbsent (fs : FS) (d : String) : FS :=
  if fs.existsPath d then fs else fs.mkdir d

/-- `shutil.copy src dst`: the destination file now exists. -/
def FS.copy (fs : FS) (src dst : String) : FS :=
  FS.mk fs.dirs (dst :: fs.files)

/-- The artifacts a prepend source must provide (`main.py` lines 158-159). -/
def log_files : List String :=
  ["eval", "conf.0", "conf.1", "conf.2", "conf.3", "conf.4",
   "conf.5", "conf.6", "conf.7", "conf.8", "conf.9"]

/-- Lines 145-152 of `setup_outfiles`: remove the output directory if it
exists, then create it fresh. -/
def prepFS (fs : FS) (dirname : String) : FS :=
  (if fs.existsPath dirname then fs.rmtree dirname else fs).mkdir dirname

/-- Lines 160-164 of `setup_outfiles`: for each expected artifact, assert
it exists in the prepend source, then copy it into the output directory;
the first missing artifact aborts with its path. -/
def copyLogs (src dst : String) : FS → List String → FS × Option PyErr
  | fs, [] => (fs, none)
  | fs, cf :: rest =>
      let pre_fpath := src ++ "/" ++ cf
      if fs.isFile pre_fpath then
        copyLogs src dst (fs.copy pre_fpath (dst ++ "/" ++ cf)) rest
      else (fs, some (PyErr.prependMissingFile pre_fpath))

/-- `setup_outfiles` (`main.py` lines 132-164).  Returns the filesystem
as of the return / raise point together with the raised error, if any.
The conflict assertion (line 142) runs before any mutation. -/
def setup_outfiles (fs : FS) (dirname : String) (prepend : Option String) :
    FS × Option PyErr :=
  if prepend = some dirname then (fs, some PyErr.prependConflict)
  else
    let fs2 := prepFS fs dirname
    match prepend with
    | none => (fs2, none)
    | some p =>
        if fs2.existsPath p then copyLogs p dirname fs2 log_files
        else (fs2, some (PyErr.prependMissingDir p))

/-- `'/scratch/checkpoints'` (`main.py` line 170). -/
def ckpt_dir : String := "/scratch/checkpoints"

/-- Line 182: the checkpoint save name. -/
def ckpt_output_fname (a : Args) : String :=
  ckpt_dir ++ "/" ++ a.checkpoint_name ++ ".ckpt"

/-- Lines 188-189: the checkpoint load name: `--checkpoint-lname` if
given, else the save name. -/
def ckpt_load_fname (a : Args) : String :=
  a.checkpoint_lname.getD (ckpt_output_fname a)

/-- Line 332: the run's output directory. -/
def outdir (a : Args) : String :=
  "/scratch/" ++ a.runname ++ ".hogwild"

/-- `setup_and_load` (`main.py` lines 167-202).  Every control path of
the source function raises before a normal return: in the simulate
branch, after a successful checkpoint load and `setup_outfiles`, line
197 evaluates the unbound module global `best_acc` (NameError); in the
non-simulate branch line 202 returns the never-assigned local `bacc`
(UnboundLocalError).  The result is therefore the filesystem as of the
raise point paired with the raised error.  The `torch.load` /
`load_state_dict` calls mutate only the in-memory model (external
collaborator) and are not filesystem effects. -/
def setup_and_load (fs : FS) (a : Args) : FS × PyErr :=
  let fs1 := fs.mkdirIfAbsent ckpt_dir
  match a.mode with
  | Mode.simulate _ | Mode.simulateMulti _ _ =>
      if a.resume = -1 then (fs1, PyErr.simulateNeedsCheckpoint)
      else if fs1.isFile (ckpt_load_fname a) then
        match setup_outfiles fs1 (outdir a) a.prepend_logs with
        | (fs2, some e) => (fs2, e)
        | (fs2, none) => (fs2, PyErr.nameErrorBestAcc)
      else (fs1, PyErr.checkpointNotFound (ckpt_load_fname a))
  | _ =>
      match setup_outfiles fs1 (outdir a) none with
      | (fs2, some e) => (fs2, e)
      | (fs2, none) => (fs2, PyErr.unboundLocalBacc)

/-- One evaluation record as appended to the in-memory `log` list by
`launch_atk_proc` (line 217) and `launch_procs` (line 269):
`{'vloss': vloss, 'vacc': vacc, 'time': eval_counter}`.  The log lists
are afterwards written verbatim to `outdir/eval` ('w' mode in
`launch_atk_proc`, 'a' mode in `launch_procs`). -/
structure EvalRecord (α : Type) where
  time : Nat
  vloss : α
  vacc : α
deriving DecidableEq

/-- `procs_alive` (`main.py` lines 122-129): true as long as any worker
is alive.  Workers are identified by rank; a liveness snapshot `s`
tells, per rank, whether `is_alive()` returns true at this poll. -/
def procs_alive (procs : List Nat) (s : Nat → Bool) : Bool :=
  procs.any s

/-- `proc_dead` (`main.py` lines 111-119): true as soon as any worker
is dead.  Defined in the source but never called from `main.py`. -/
def proc_dead (procs : List Nat) (s : Nat → Bool) : Bool :=
  procs.any (fun p => !s p)

/-- The poll loop of `launch_procs` (lines 264-273): while `procs_alive`
observes some live worker, run one evaluation (`test` with
`etime=eval_counter`), append one record carrying the counter, and
increment the counter; exit at the first uniformly-dead snapshot.
`snaps` is the sequence of liveness snapshots the successive
`procs_alive` calls observe; snapshots after the first uniformly-dead
one are never consulted by the source loop, and an exhausted snapshot
list models a world in which every later check reports dead. -/
def pollLoop {α : Type} (test : Option Int → α × α) (procs : List Nat) :
    Nat → List (Nat → Bool) → List (EvalRecord α)
  | _, [] => []
  | c, s :: rest =>
      if procs_alive procs s then
        EvalRecord.mk c (test (some (Int.ofNat c))).1 (test (some (Int.ofNat c))).2
          :: pollLoop test procs (c + 1) rest
      else []

/-- Lines 225-228: the logical tag of the post-attack evaluation —
`args.attack_batches` in `simulate` mode, `args.num_stages` in
`simulate-multi` mode.  `launch_atk_proc` is only reached when
`simulating` is true (line 348), so the remaining modes are dead
(the source would raise an `AttributeError` on `args.num_stages`
there; the value 0 below is never consulted by any theorem). -/
def post_attack_step : Mode → Nat
  | Mode.simulate ab => ab
  | Mode.simulateMulti _ ns => ns
  | _ => 0

/-- The in-attack poll records of `launch_atk_proc` (lines 211-220):
`n` iterations observed the attack process alive; each ran `test` with
`etime=None` and appended a record carrying the counter 0, 1, .... -/
def atk_poll_records {α : Type} (test : Option Int → α × α) (n : Nat) :
    List (EvalRecord α) :=
  (List.range n).map (fun i => EvalRecord.mk i (test none).1 (test none).2)

/-- `launch_atk_proc` (`main.py` lines 205-239): spawn the rank-0 attack
worker, poll-evaluate while it is alive (`aliveIters` iterations), then
run one post-attack evaluation with `etime=post_attack_step` and append
one final record carrying the current `eval_counter` (= `aliveIters`).
The function then opens `outdir/eval` in 'w' mode and writes the log
row by row (lines 234-237); the log always contains at least the
post-attack record, so the first `writerow` raises
`ValueError` (`'vloss'` is not among the declared fieldnames) — the
function never reaches `return post_attack_step` at line 239.  The
result is the in-memory log as of the raise point paired with the
raised error; the locally bound `post_attack_step` escapes only as the
`etime` tag of the post-attack evaluation call, visible in the final
record. -/
def launch_atk_proc {α : Type} (mode : Mode) (test : Option Int → α × α)
    (aliveIters : Nat) : List (EvalRecord α) × PyErr :=
  let step := post_attack_step mode
  (atk_poll_records test aliveIters
      ++ [EvalRecord.mk aliveIters (test (some (Int.ofNat step))).1
            (test (some (Int.ofNat step))).2],
   PyErr.valueErrorCsvVloss)

/-- Result of `launch_procs`: the ranks spawned, the in-memory eval
log, the error raised by the csv write of the log (if any), and the
ranks reached by the `kill -9` loop of lines 284-285. -/
structure ProcsOutcome (α : Type) where
  spawned : List Nat
  log : List (EvalRecord α)
  err : Option PyErr
  killed : List Nat
deriving DecidableEq

/-- `launch_procs` (`main.py` lines 242-285): early return when no
worker would be spawned (`s_rank == num_processes`); otherwise spawn
ranks `[s_rank, num_processes)` and run the poll loop starting from the
given `eval_counter`.  Afterwards the log is written to `outdir/eval`
('a' mode, lines 277-280): when the log is empty the row loop never
runs, no error is raised and the kill loop (lines 284-285) reaches
every spawned pid; when the log is non-empty the first `writerow`
raises `ValueError` (`'vloss'` not among the declared fieldnames) and
the kill loop is skipped. -/
def launch_procs {α : Type} (test : Option Int → α × α)
    (eval_counter s_rank num_processes : Nat) (snaps : List (Nat → Bool)) :
    ProcsOutcome α :=
  if s_rank = num_processes then ProcsOutcome.mk [] [] none []
  else
    let procs := List.range' s_rank (num_processes - s_rank)
    let log := pollLoop test procs eval_counter snaps
    ProcsOutcome.mk procs log
      (if log.isEmpty then none else some PyErr.valueErrorCsvVloss)
      (if log.isEmpty then procs else [])

/-- `args.baseline` (`main.py` lines 310, 316, 321).  The sub-command
parser (lines 48-65) stores the chosen sub-command under `args.mode`
and defines no `baseline` attribute — the flag is a leftover from the
flag-based variant of this script — so every access raises
`AttributeError`. -/
def argsGetBaseline (_ : Args) : Except PyErr Bool :=
  Except.error (PyErr.attributeError "baseline")

/-- The `__main__` prologue (`main.py` lines 297-322): compute the
`simulating` flag, then `use_cuda = args.baseline and ...` (line 310),
the interactive CPU-baseline confirmation (lines 316-318) and the
baseline/process-count assertion (lines 321-322).  Returns
`(simulating, use_cuda)` on success.  The first `args.baseline` access
raises, so the code after the match arm is dead in the source as well;
it is nevertheless translated faithfully. -/
def mainPrologue (a : Args) (cudaAvailable : Bool) (userInput : String) :
    Except PyErr (Bool × Bool) :=
  let simulating := simulatingOf a.mode
  match argsGetBaseline a with
  | Except.error e => Except.error e
  | Except.ok baseline =>
      let use_cuda := baseline && cudaAvailable
      if !baseline && !simulating && decide (a.num_processes < 2) then
        if userInput = "y" then
          if baseline && decide (a.num_processes > 1) then
            Except.error PyErr.baselineTooManyProcs
          else Except.ok (simulating, use_cuda)
        else Except.error PyErr.cpuBaselineRefused
      else if baseline && decide (a.num_processes > 1) then
        Except.error PyErr.baselineTooManyProcs
      else Except.ok (simulating, use_cuda)

/-- Observable orchestrator events of the launch phase. -/
inductive Event
  /-- Writing the status marker file (line 357-358). -/
  | statusWrite (content : String)
  /-- Starting a worker process of the given rank. -/
  | spawn (rank : Nat)
  /-- Appending an eval record with the given logical counter. -/
  | evalAppend (time : Nat)
deriving DecidableEq

/-- Is the event a status-marker write? -/
def Event.isStatusWrite : Event → Bool
  | Event.statusWrite _ => true
  | _ => false

/-- The event trace of one `launch_procs` call: all spawns happen in the
rank loop (lines 253-258) before the poll loop appends any record. -/
def procsEvents {α : Type} (test : Option Int → α × α)
    (eval_counter s_rank num_processes : Nat) (snaps : List (Nat → Bool)) :
    List Event :=
  if s_rank = num_processes then []
  else
    let procs := List.range' s_rank (num_processes - s_rank)
    procs.map Event.spawn
      ++ (pollLoop test procs eval_counter snaps).map
          (fun r => Event.evalAppend r.time)

/-- The launch phase of `__main__` (`main.py` lines 347-359): when
simulating, spawn the rank-0 attack worker and run the attack poll
loop — the `step = launch_atk_proc()` call at line 349 then raises at
its csv write (see `launch_atk_proc`), so `step` is never bound and the
recovery launch `launch_procs(step, s_rank=1)` at line 352 never
executes; otherwise write the status marker file
(`'Starting Training'`) and launch all workers from rank 0 with the
counter at 0.  `nAtk` is the number of poll iterations that observed
the attack worker alive.  The trace records the events up to the first
raise; the spawns and in-memory appends of `launch_procs` all precede
its csv write, so the non-simulating trace is unaffected by that later
raise. -/
def launchPhase {α : Type} (a : Args) (test : Option Int → α × α)
    (nAtk : Nat) (snaps : List (Nat → Bool)) : List Event :=
  if simulatingOf a.mode then
    let res := launch_atk_proc a.mode test nAtk
    Event.spawn 0 :: res.1.map (fun r => Event.evalAppend r.time)
  else
    Event.statusWrite "Starting Training"
      :: procsEvents test 0 0 a.num_processes snaps

/-- The `__main__` body from line 336 on, as far as it is reachable:
`model, best_acc = setup_and_load(model)` raises on every control path
(see `setup_and_load`), so lines 338-370 — including both calls of the
launch phase — never execute and the event trace is empty.  The result
is the (empty) event trace, the filesystem at the raise point and the
raised error. -/
def mainBody (fs : FS) (a : Args) : List Event × FS × PyErr :=
  let r := setup_and_load fs a
  ([], r.1, r.2)

/-- A concrete loss/accuracy oracle used by closed instances. -/
def testN : Option Int → Nat × Nat := fun _ => (0, 0)

/-! ## Helper lemmas -/

/-- The counters carried by a poll-loop log are exactly
`c, c+1, c+2, ...`: consecutive from the starting counter. -/
theorem pollLoop_map_time {α : Type} (test : Option Int → α × α)
    (procs : List Nat) :
    ∀ (snaps : List (Nat → Bool)) (c : Nat),
      (pollLoop test procs c snaps).map EvalRecord.time
        = List.range' c (pollLoop test procs c snaps).length := by
  intro snaps
  induction snaps with
  | nil => intro c; rfl
  | cons s rest ih =>
      intro c
      by_cases h : procs_alive procs s
      · simp only [pollLoop, h, if_true, List.map_cons, List.length_cons,
          List.range'_succ]
        exact congrArg (c :: ·) (ih (c + 1))
      · simp only [pollLoop, h, if_false, List.map_nil, List.length_nil]
        rfl

/-- The poll loop appends exactly one record per iteration in which
`procs_alive` still observed a live worker. -/
theorem pollLoop_length {α : Type} (test : Option Int → α × α)
    (procs : List Nat) :
    ∀ (snaps : List (Nat → Bool)) (c : Nat),
      (pollLoop test procs c snaps).length
        = (snaps.takeWhile (procs_alive procs)).length := by
  intro snaps
  induction snaps with
  | nil => intro c; rfl
  | cons s rest ih =>
      intro c
      by_cases h : procs_alive procs s
      · simp [pollLoop, h, List.takeWhile_cons, ih (c + 1)]
      · simp [pollLoop, h, List.takeWhile_cons]

/-- The counters of a `launch_procs` log are consecutive from its
starting counter. -/
theorem launch_procs_map_time {α : Type} (test : Option Int → α × α)
    (c s_rank np : Nat) (snaps : List (Nat → Bool)) :
    (launch_procs test c s_rank np snaps).log.map EvalRecord.time
      = List.range' c (launch_procs test c s_rank np snaps).log.length := by
  unfold launch_procs
  by_cases h : s_rank = np
  · simp [h]
  · simp only [h, if_false]
    exact pollLoop_map_time test _ snaps c

/-- A `launch_procs` event trace contains no status-marker write. -/
theorem procsEvents_no_statusWrite {α : Type} (test : Option Int → α × α)
    (c s_rank np : Nat) (snaps : List (Nat → Bool)) :
    (procsEvents test c s_rank np snaps).countP Event.isStatusWrite = 0 := by
  unfold procsEvents
  by_cases h : s_rank = np
  · simp [h]
  · simp only [h, if_false]
    rw [List.countP_eq_zero]
    intro e he
    rcases List.mem_append.mp he with hm | hm
    · rcases List.mem_map.mp hm with ⟨r, _, rfl⟩
      simp [Event.isStatusWrite]
    · rcases List.mem_map.mp hm with ⟨r, _, rfl⟩
      simp [Event.isStatusWrite]

/-- If some expected artifact is absent from the source — and no copy
performed along the way can create it, because its path differs from
every destination path — then the copy loop stops with a
`prependMissingFile` error. -/
theorem copyLogs_missing (src dst : String) :
    ∀ (l : List String) (fs : FS),
      (∃ cf ∈ l, fs.isFile (src ++ "/" ++ cf) = false
        ∧ ∀ cf2 ∈ l, ¬(src ++ "/" ++ cf = dst ++ "/" ++ cf2)) →
      PyErr.isPrependMissing ((copyLogs src dst fs l).2.getD PyErr.prependConflict)
        = true ∧ (copyLogs src dst fs l).2 ≠ none := by
  intro l
  induction l with
  | nil => rintro fs ⟨cf, hm, _⟩; exact absurd hm (List.not_mem_nil cf)
  | cons cf0 rest ih =>
      rintro fs ⟨cf, hm, hmiss, hne⟩
      by_cases h0 : fs.isFile (src ++ "/" ++ cf0)
      · have hcf : cf ∈ rest := by
          rcases List.mem_cons.mp hm with rfl | hr
          · exact absurd h0 (by simp [hmiss])
          · exact hr
        have hmiss' :
            (fs.copy (src ++ "/" ++ cf0) (dst ++ "/" ++ cf0)).isFile
              (src ++ "/" ++ cf) = false := by
          have hne0 : ¬(src ++ "/" ++ cf = dst ++ "/" ++ cf0) :=
            hne cf0 (List.mem_cons_self cf0 rest)
          simp only [FS.copy, FS.isFile, List.mem_cons] at hmiss ⊢
          simp only [FS.isFile, decide_eq_false_iff_not] at hmiss
          simp [hne0, hmiss]
        have := ih (fs.copy (src ++ "/" ++ cf0) (dst ++ "/" ++ cf0))
          ⟨cf, hcf, hmiss', fun cf2 h2 => hne cf2 (List.mem_cons_of_mem cf0 h2)⟩
        simpa [copyLogs, h0] using this
      · simp [copyLogs, h0, PyErr.isPrependMissing]

/-- `setup_outfiles` with a prepend source distinct from the output
directory fails with a prepend-missing assertion whenever the source
directory is absent after the output directory is recreated, or some
expected artifact is absent (and cannot be created by the preceding
copies). -/
theorem setup_outfiles_missing (fs1 : FS) (d p : String)
    (hne : ¬p = d)
    (hmiss : (prepFS fs1 d).existsPath p = false
      ∨ ∃ cf ∈ log_files,
          (prepFS fs1 d).isFile (p ++ "/" ++ cf) = false
          ∧ ∀ cf2 ∈ log_files, ¬(p ++ "/" ++ cf = d ++ "/" ++ cf2)) :
    ∃ e, (setup_outfiles fs1 d (some p)).2 = some e
      ∧ PyErr.isPrependMissing e = true := by
  unfold setup_outfiles
  rw [if_neg (fun h => hne (Option.some.injEq p d ▸ h))]
  by_cases hex : (prepFS fs1 d).existsPath p
  · rcases hmiss with hl | hr
    · rw [hex] at hl
      cases hl
    · have hc := copyLogs_missing p d log_files (prepFS fs1 d) hr
      rcases h2 : (copyLogs p d (prepFS fs1 d) log_files).2 with _ | e
      · exact absurd h2 hc.2
      · refine ⟨e, ?_, ?_⟩
        · simpa [hex] using h2
        · have h1 := hc.1
          rw [h2] at h1
          simpa using h1
  · refine ⟨PyErr.prependMissingDir p, ?_, rfl⟩
    simp [hex]

/-- In a simulation mode, once the resume index is given and the
checkpoint file exists, `setup_and_load` behaves as `setup_outfiles`
followed by the NameError at line 197. -/
theorem setup_and_load_sim_eq (fs : FS) (a : Args)
    (hsim : simulatingOf a.mode = true)
    (hres : ¬a.resume = -1)
    (hck : (fs.mkdirIfAbsent ckpt_dir).isFile (ckpt_load_fname a) = true) :
    setup_and_load fs a =
      (match setup_outfiles (fs.mkdirIfAbsent ckpt_dir) (outdir a)
          a.prepend_logs with
       | (fs2, some e) => (fs2, e)
       | (fs2, none) => (fs2, PyErr.nameErrorBestAcc)) := by
  obtain ⟨rn, md, rs, cn, cl, pl, np⟩ := a
  cases md <;> simp_all [setup_and_load, simulatingOf]

/-! ## Claim theorems -/

/-- C1 (counterexample): the claim states that the single post-attack
EvalRecord's logical timestamp equals the configured attack-batch count
in simulate mode.  Concrete refutation: with `--attack-batches 3` and
an attack worker already observed dead at the first poll, the appended
post-attack record carries timestamp 0 (the eval counter), not 3. -/
theorem c1_post_attack_time_counterexample :
    ¬((launch_atk_proc (Mode.simulate 3) testN 0).1.getLast?.map
        EvalRecord.time = some 3) := by
  decide

/-- C1 (amended): in a simulation run, after the attack worker dies,
exactly one post-attack EvalRecord is appended to the in-memory log
(the log holds the `n` in-attack records followed by exactly one
more); the post-attack record's logical timestamp equals the final
eval counter `n` (the number of in-attack poll iterations), while the
configured attack-batch count (simulate mode) resp. number of stages
(simulate-multi mode) appears only as the `etime` tag of the
post-attack evaluation call, visible in the final record's
loss/accuracy pair; `launch_atk_proc` then raises `ValueError` at its
csv write and never returns the post-attack step. -/
theorem c1_post_attack_record {α : Type} (test : Option Int → α × α)
    (ab ss ns n : Nat) :
    ((launch_atk_proc (Mode.simulate ab) test n).1.length = n + 1
      ∧ (launch_atk_proc (Mode.simulate ab) test n).1.getLast?
          = some (EvalRecord.mk n (test (some (Int.ofNat ab))).1
              (test (some (Int.ofNat ab))).2)
      ∧ (launch_atk_proc (Mode.simulate ab) test n).2
          = PyErr.valueErrorCsvVloss)
    ∧ ((launch_atk_proc (Mode.simulateMulti ss ns) test n).1.length = n + 1
      ∧ (launch_atk_proc (Mode.simulateMulti ss ns) test n).1.getLast?
          = some (EvalRecord.mk n (test (some (Int.ofNat ns))).1
              (test (some (Int.ofNat ns))).2)
      ∧ (launch_atk_proc (Mode.simulateMulti ss ns) test n).2
          = PyErr.valueErrorCsvVloss) := by
  refine ⟨⟨?_, ?_, rfl⟩, ⟨?_, ?_, rfl⟩⟩ <;>
    simp [launch_atk_proc, atk_poll_records, post_attack_step,
      List.getLast?_concat]

/-- C2: within a single continuous phase — the attack-simulation poll
loop of `launch_atk_proc` (including its final post-attack append,
written in the same file pass), or one invocation of the
`launch_procs` poll loop — the logical counters of the appended
EvalRecords are exactly consecutive naturals from the phase's starting
counter: strictly increasing, with no gaps and no duplicates. -/
theorem c2_eval_counters_contiguous {α : Type} (test : Option Int → α × α)
    (mode : Mode) (n c s_rank np : Nat) (snaps : List (Nat → Bool)) :
    (launch_atk_proc mode test n).1.map EvalRecord.time = List.range (n + 1)
    ∧ (launch_procs test c s_rank np snaps).log.map EvalRecord.time
        = List.range' c (launch_procs test c s_rank np snaps).log.length := by
  constructor
  · simp only [launch_atk_proc, List.map_append, List.map_cons, List.map_nil]
    rw [List.range_succ]
    simp [atk_poll_records, List.map_map, Function.comp_def]
  · exact launch_procs_map_time test c s_rank np snaps

/-- C3: the `launch_procs` polling loop appends exactly one EvalRecord
per iteration in which `procs_alive` still observed a live worker
handle; at the first uniformly-dead observation it appends nothing
further (before draining); and `procs_alive` holds precisely when at
least one spawned handle is alive. -/
theorem c3_poll_loop_liveness {α : Type} (test : Option Int → α × α)
    (procs : List Nat) (snaps : List (Nat → Bool)) (c : Nat) :
    (pollLoop test procs c snaps).length
        = (snaps.takeWhile (procs_alive procs)).length
    ∧ (∀ (s : Nat → Bool) (rest : List (Nat → Bool)),
        procs_alive procs s = false → pollLoop test procs c (s :: rest) = [])
    ∧ (∀ s : Nat → Bool, procs_alive procs s = true ↔ ∃ p ∈ procs, s p = true) := by
  refine ⟨pollLoop_length test procs snaps c, ?_, ?_⟩
  · intro s rest hs
    simp [pollLoop, hs]
  · intro s
    simp [procs_alive, List.any_eq_true]

/-- C3 witness: the theorem instantiated at a concrete two-worker pool:
one alive snapshot then a dead one yields exactly one record; a dead
first observation yields no record at all; liveness of the snapshot
`r == 1` is the existence of a live rank. -/
theorem c3_poll_loop_liveness_witness :
    (pollLoop testN [0, 1] 0 [fun _ => true, fun _ => false]).length
        = (([fun _ => true, fun _ => false] :
            List (Nat → Bool)).takeWhile (procs_alive [0, 1])).length
    ∧ pollLoop testN [0, 1] 5 ((fun _ => false) :: [fun _ => true]) = []
    ∧ (procs_alive [0, 1] (fun r => r == 1) = true
        ↔ ∃ p ∈ [0, 1], (fun r : Nat => r == 1) p = true) :=
  ⟨(c3_poll_loop_liveness testN [0, 1] [fun _ => true, fun _ => false] 0).1,
   (c3_poll_loop_liveness testN [0, 1] [] 5).2.1 (fun _ => false)
     [fun _ => true] (by decide),
   (c3_poll_loop_liveness testN [0, 1] [] 0).2.2 (fun r => r == 1)⟩

/-- C4 (code bug): the claim says `setup_and_load` returns the pair
(model, best-known accuracy) — checkpoint accuracy when one is loaded,
a defined cold-start value otherwise.  The code instead raises on every
control path: in a non-simulation run (here: no sub-command, default
arguments, empty filesystem) it reaches `return mdl, bacc` with the
local `bacc` never assigned (UnboundLocalError, line 202); in a
simulation run whose checkpoint loads successfully it evaluates the
still-unbound module global `best_acc` at line 197 (NameError) before
it can return the checkpoint accuracy. -/
theorem c4_setup_and_load_crashes :
    (setup_and_load (FS.mk [] [])
        (Args.mk "r" Mode.normal (-1) "ckpt.t7" none none 2)).2
      = PyErr.unboundLocalBacc
    ∧ (setup_and_load (FS.mk [] ["/scratch/checkpoints/ckpt.t7.ckpt"])
        (Args.mk "r" (Mode.simulate 3) 0 "ckpt.t7" none none 2)).2
      = PyErr.nameErrorBestAcc := by
  constructor <;> rfl

/-- C5 (code bug): the claim says `{mode=baseline, processCount=2}`
fails with a configuration error before any worker is spawned.  The
run does abort before spawning, but not via the baseline/process-count
assertion of line 321: the prologue already raises `AttributeError` at
line 310 (`use_cuda = args.baseline and ...`), because the sub-command
parser never defines `args.baseline`.  The same AttributeError aborts a
well-formed configuration (second conjunct: no sub-command, 2
processes), showing the failure is not the claimed configuration
check. -/
theorem c5_baseline_attribute_crash :
    mainPrologue (Args.mk "r" Mode.baseline (-1) "ckpt.t7" none none 2)
        false ""
      = Except.error (PyErr.attributeError "baseline")
    ∧ mainPrologue (Args.mk "r" Mode.normal (-1) "ckpt.t7" none none 2)
        false "y"
      = Except.error (PyErr.attributeError "baseline") := by
  constructor <;> rfl

/-- C6: if the prepend source path equals the output directory path,
`setup_outfiles` fails with the prepend-conflict assertion and returns
the filesystem exactly as it was — the conflict check (line 142)
precedes the removal/recreation of the output directory, so no
directory mutation occurs before the failure. -/
theorem c6_prepend_conflict_no_mutation (fs : FS) (d : String) :
    setup_outfiles fs d (some d) = (fs, some PyErr.prependConflict) := by
  simp [setup_outfiles]

/-- C10 (code bug): the claim — the recovery-phase polling loop starts
its logical counter at the post-attack step value — matches the plain
intent of `launch_procs(step, s_rank=1)` at main.py line 352, but that
call is unreachable: `launch_atk_proc` always raises `ValueError` at
its csv write (line 237, extra `'vloss'` key) before
`return post_attack_step`, so `step` is never bound.  Concretely:
a simulate run with attack-batch count 3 ends `launch_atk_proc` in the
csv ValueError, and its launch phase — despite two configured
processes and a live recovery snapshot — never spawns the rank-1
recovery worker. -/
theorem c10_recovery_launch_unreachable :
    (launch_atk_proc (Mode.simulate 3) testN 0).2 = PyErr.valueErrorCsvVloss
    ∧ ¬(Event.spawn 1 ∈
        launchPhase (Args.mk "r" (Mode.simulate 3) 0 "ckpt.t7" none none 2)
          testN 0 [fun _ => true]) := by
  exact ⟨rfl, by decide⟩

/-- C7: if a prepend source is given and — once execution reaches the
`setup_outfiles` call of the simulate branch — the source directory or
one of its expected artifacts (the `eval` log and `conf.0`..`conf.9`)
is absent, then the run aborts during output-directory preparation with
a prepend-missing assertion, and no worker process is ever spawned (the
event trace of the `__main__` body is empty: both launch sites lie
after the raise point).  The artifact-missing disjunct additionally
requires the missing artifact's source path to differ from every copy
destination, which holds whenever the source and output directories are
distinct directories on disk. -/
theorem c7_prepend_missing_aborts (fs : FS) (a : Args) (p : String)
    (hsim : simulatingOf a.mode = true)
    (hres : ¬a.resume = -1)
    (hck : (fs.mkdirIfAbsent ckpt_dir).isFile (ckpt_load_fname a) = true)
    (hp : a.prepend_logs = some p)
    (hne : ¬p = outdir a)
    (hmiss : (prepFS (fs.mkdirIfAbsent ckpt_dir) (outdir a)).existsPath p = false
      ∨ ∃ cf ∈ log_files,
          (prepFS (fs.mkdirIfAbsent ckpt_dir) (outdir a)).isFile
              (p ++ "/" ++ cf) = false
          ∧ ∀ cf2 ∈ log_files, ¬(p ++ "/" ++ cf = outdir a ++ "/" ++ cf2)) :
    (mainBody fs a).1 = []
    ∧ PyErr.isPrependMissing (mainBody fs a).2.2 = true := by
  obtain ⟨e, he, hpe⟩ :=
    setup_outfiles_missing (fs.mkdirIfAbsent ckpt_dir) (outdir a) p hne hmiss
  refine ⟨rfl, ?_⟩
  show PyErr.isPrependMissing (setup_and_load fs a).2 = true
  rw [setup_and_load_sim_eq fs a hsim hres hck, hp]
  rcases hq : setup_outfiles (fs.mkdirIfAbsent ckpt_dir) (outdir a) (some p)
    with ⟨fs2, oe⟩
  rw [hq] at he
  simp only at he
  rw [he]
  exact hpe

/-- C7 witness: a concrete simulate run whose checkpoint file exists
but whose prepend source `/pre` does not: preparation aborts with a
prepend-missing error and the body's event trace is empty. -/
theorem c7_prepend_missing_aborts_witness :
    (mainBody (FS.mk [] ["/scratch/checkpoints/ckpt.t7.ckpt"])
        (Args.mk "r" (Mode.simulate 1) 0 "ckpt.t7" none (some "/pre") 2)).1 = []
    ∧ PyErr.isPrependMissing
        (mainBody (FS.mk [] ["/scratch/checkpoints/ckpt.t7.ckpt"])
          (Args.mk "r" (Mode.simulate 1) 0 "ckpt.t7" none (some "/pre") 2)).2.2
      = true :=
  c7_prepend_missing_aborts
    (FS.mk [] ["/scratch/checkpoints/ckpt.t7.ckpt"])
    (Args.mk "r" (Mode.simulate 1) 0 "ckpt.t7" none (some "/pre") 2)
    "/pre" (by decide) (by decide) (by decide) rfl (by decide)
    (Or.inl (by decide))

/-- C8 (counterexample): the claim states the status marker is written
at the start of every run regardless of mode.  Concrete refutation: a
`simulate` launch phase (2 processes, attack worker dead at first poll,
no recovery snapshot) spawns workers yet contains no status-marker
write at all. -/
theorem c8_no_status_in_simulation :
    (launchPhase (Args.mk "r" (Mode.simulate 1) 0 "ckpt.t7" none none 2)
        testN 0 []).countP Event.isStatusWrite = 0
    ∧ Event.spawn 0 ∈
        launchPhase (Args.mk "r" (Mode.simulate 1) 0 "ckpt.t7" none none 2)
          testN 0 [] := by
  decide

/-- C8 (amended): only in non-simulation modes (normal training and
baseline) does the launch phase write the status marker: there it is
written exactly once, with content "Starting Training", and it is the
very first event — in particular it precedes every worker spawn.
Simulation-mode launch phases write no status marker. -/
theorem c8_status_marker_nonsim_only {α : Type} (a : Args)
    (test : Option Int → α × α) (nAtk : Nat) (snaps : List (Nat → Bool))
    (hns : simulatingOf a.mode = false) :
    (launchPhase a test nAtk snaps).head?
        = some (Event.statusWrite "Starting Training")
    ∧ (launchPhase a test nAtk snaps).countP Event.isStatusWrite = 1 := by
  unfold launchPhase
  rw [hns]
  simp [List.countP_cons, procsEvents_no_statusWrite, Event.isStatusWrite]

/-- C8 witness: the amended statement at a concrete normal-mode
configuration. -/
theorem c8_status_marker_nonsim_only_witness :
    (launchPhase (Args.mk "r" Mode.normal (-1) "ckpt.t7" none none 2)
        testN 0 []).head? = some (Event.statusWrite "Starting Training")
    ∧ (launchPhase (Args.mk "r" Mode.normal (-1) "ckpt.t7" none none 2)
        testN 0 []).countP Event.isStatusWrite = 1 :=
  c8_status_marker_nonsim_only
    (Args.mk "r" Mode.normal (-1) "ckpt.t7" none none 2) testN 0 [] rfl

/-- C9: in the simulation modes, if the resume index is left at -1 or
the resolved checkpoint file does not exist, the run aborts during
checkpoint loading — with the `simulate`-needs-checkpoint assertion
(line 186) when `resume == -1`, else with the checkpoint-not-found
assertion (line 190) — and no worker process is ever spawned (the
`__main__` body's event trace is empty; both launch sites lie after
`setup_and_load`). -/
theorem c9_simulation_checkpoint_required (fs : FS) (a : Args)
    (hsim : simulatingOf a.mode = true)
    (hbad : a.resume = -1
      ∨ (fs.mkdirIfAbsent ckpt_dir).isFile (ckpt_load_fname a) = false) :
    (mainBody fs a).1 = []
    ∧ (mainBody fs a).2.2
        = (if a.resume = -1 then PyErr.simulateNeedsCheckpoint
            else PyErr.checkpointNotFound (ckpt_load_fname a)) := by
  refine ⟨rfl, ?_⟩
  show (setup_and_load fs a).2 = _
  obtain ⟨rn, md, rs, cn, cl, pl, np⟩ := a
  by_cases hr : rs = -1
  · cases md <;> simp_all [setup_and_load, simulatingOf]
  · rcases hbad with h | h
    · exact absurd h hr
    · cases md <;> simp_all [setup_and_load, simulatingOf]

/-- C9 witness: a concrete simulate run with the resume index left at
-1 aborts with the simulate-needs-checkpoint assertion and an empty
event trace. -/
theorem c9_simulation_checkpoint_required_witness :
    (mainBody (FS.mk [] [])
        (Args.mk "r" (Mode.simulate 1) (-1) "ckpt.t7" none none 2)).1 = []
    ∧ (mainBody (FS.mk [] [])
        (Args.mk "r" (Mode.simulate 1) (-1) "ckpt.t7" none none 2)).2.2
      = (if ((Args.mk "r" (Mode.simulate 1) (-1) "ckpt.t7" none none 2) :
            Args).resume = -1 then PyErr.simulateNeedsCheckpoint
          else PyErr.checkpointNotFound
            (ckpt_load_fname
              (Args.mk "r" (Mode.simulate 1) (-1) "ckpt.t7" none none 2))) :=
  c9_simulation_checkpoint_required (FS.mk [] [])
    (Args.mk "r" (Mode.simulate 1) (-1) "ckpt.t7" none none 2)
    rfl (Or.inl rfl)

end Hogwild
